import Mathlib

/-!
Shallow embedding of `src/bounce/bounce.py` (the `Bounce` cog): join cache,
escalation policy, tempban ledger and reconciliation tick, log-action ledger
state machine, restart recovery and the delegation probe.  Timestamps are
modelled as `Nat` seconds; elapsed times as `Int`; Python dicts keyed by ids
as association lists; every fallible external platform call is an explicit
outcome parameter.
-/

set_option autoImplicit false

/-- Association-list lookup, modelling Python `dict.get(k)` for `Nat` keys. -/
def alookup (l : List (Nat × Nat)) (k : Nat) : Option Nat :=
  match l with
  | [] => none
  | (k', v) :: rest => if k' = k then some v else alookup rest k

/-- Association-list upsert, modelling Python `d[k] = v` on a dict. -/
def aupsert (l : List (Nat × Nat)) (k v : Nat) : List (Nat × Nat) :=
  match l with
  | [] => [(k, v)]
  | (k', v') :: rest => if k' = k then (k, v) :: rest else (k', v') :: aupsert rest k v

/-- Association-list removal, modelling Python `d.pop(k, None)`'s state effect. -/
def aerase (l : List (Nat × Nat)) (k : Nat) : List (Nat × Nat) :=
  l.filter (fun p => p.1 ≠ k)

/-- `_format_duration` from the source. -/
def format_duration (seconds : Nat) : String :=
  if seconds % 86400 = 0 then toString (seconds / 86400) ++ "d"
  else if seconds % 3600 = 0 then toString (seconds / 3600) ++ "h"
  else if seconds % 60 = 0 then toString (seconds / 60) ++ "m"
  else toString seconds ++ "s"

/-- The per-guild configuration fields read by the event handlers
(`register_guild` defaults in `Bounce.__init__`). -/
structure GuildConfig where
  enabled : Bool
  window_seconds : Nat
  ban_duration_seconds : Nat
  include_bots : Bool
  welcome_enabled : Bool
  repeat_enabled : Bool
  log_channel : Option Nat
deriving Repr, DecidableEq

/-- One entry of the `tempbans` durable list:
`{"user_id": ..., "expires_at": ..., "reason": ...}`. -/
structure TempbanRecord where
  user_id : Nat
  expires_at : Nat
  reason : String
deriving Repr, DecidableEq

/-- The payload dict stored with a log action (`_log_action`). -/
structure Payload where
  member_tag : String
  join_time : Nat
  leave_time : Nat
  elapsed_seconds : Int
  dm_result : String
  bounce_count : Nat
  permban : Bool
  ban_seconds : Option Nat
  unban_time : Option Nat
deriving Repr, DecidableEq

/-- One entry of the `log_actions` durable list.  Fields are `Option`s since
durable storage may hold entries with missing ids or a non-dict payload
(`none` models a missing key or a non-dict value). -/
structure LogEntry where
  user_id : Option Nat
  message_id : Option Nat
  payload : Option Payload
deriving Repr, DecidableEq

/-- Python truthiness of an optional integer field (`if not user_id`). -/
def truthy : Option Nat → Bool
  | none => false
  | some n => n != 0

/-- The per-guild mutable state the handlers touch: the in-memory join cache
and the three durable collections. -/
structure GuildState where
  join_cache : List (Nat × Nat)
  bounce_counts : List (Nat × Nat)
  tempbans : List TempbanRecord
  log_actions : List LogEntry
deriving Repr, DecidableEq

/-- `_should_ignore_member`: `member.bot and not include_bots`. -/
def should_ignore_member (isBot include_bots : Bool) : Bool :=
  isBot && !include_bots

/-- `_should_trigger_repeat`: reads the repeat-detection config and, per the
source's declared extension point, always reports no repeat. -/
def should_trigger_repeat (cfg : GuildConfig) : Bool :=
  if cfg.repeat_enabled = false then false
  else false

/-- `on_member_join`, restricted to the state it touches: the welcome-DM
gate, the bot/ignore gate, the `enabled` gate, and the join-cache write.
The welcome DM itself is a platform call with failures swallowed and no
state effect, so it is elided; its guard `if not welcome_enabled: return`
is kept exactly where the source has it. -/
def on_member_join (cfg : GuildConfig) (cache : List (Nat × Nat))
    (memberId : Nat) (isBot : Bool) (now : Nat) : List (Nat × Nat) :=
  if cfg.welcome_enabled = false then cache
  else
    if should_ignore_member isBot cfg.include_bots then cache
    else if cfg.enabled = false then cache
    else aupsert cache memberId now

/-- What one candidate lookup-and-invocation against the optional `Mod`
authority can do in `_try_mod_tempban`: the attribute is missing or not
callable, the call raises `TypeError`, the call raises some other
exception, or the call (or the awaited coroutine) completes. -/
inductive CandidateOutcome
  | absent
  | typeError
  | otherError
  | success
deriving Repr, DecidableEq

/-- The fixed ordered candidate operation names of `_try_mod_tempban`. -/
def candidate_names : List String :=
  ["_tempban", "tempban_user", "tempban_member", "tempban"]

/-- The candidate loop of `_try_mod_tempban`: skip a missing or uncallable
attribute, return accepted on the first call that completes, try the next
candidate on `TypeError`, report not-handled on any other exception. -/
def probe_candidates : List CandidateOutcome → Bool
  | [] => false
  | c :: rest =>
    match c with
    | .absent => probe_candidates rest
    | .typeError => probe_candidates rest
    | .otherError => false
    | .success => true

/-- `_try_mod_tempban`: `if not mod: return False`, then the candidate loop
over `candidate_names`, each candidate's behaviour given by `b`. -/
def try_mod_tempban (mod_present : Bool) (b : String → CandidateOutcome) : Bool :=
  if mod_present = false then false
  else probe_candidates (candidate_names.map b)

/-- `_add_tempban`: appends the new record to the durable list. -/
def add_tempban (tempbans : List TempbanRecord) (user_id until_ts : Nat)
    (reason : String) : List TempbanRecord :=
  tempbans ++ [{ user_id := user_id, expires_at := until_ts, reason := reason }]

/-- `_remove_tempban`: drops every record whose `user_id` matches. -/
def remove_tempban (tempbans : List TempbanRecord) (user_id : Nat) :
    List TempbanRecord :=
  tempbans.filter (fun e => e.user_id ≠ user_id)

/-- Outcome of a `guild.ban` platform call: completes, or raises
`Forbidden` / `HTTPException`. -/
inductive BanCallOutcome
  | success
  | forbidden
  | httpError
deriving Repr, DecidableEq

/-- Result of `_handle_tempban`: its returned `(ok, unban_time)` pair, the
tempban ledger afterwards, and whether the direct `guild.ban` was issued. -/
structure HandleTempbanResult where
  ok : Bool
  unban_time : Nat
  tempbans : List TempbanRecord
  direct_ban_tried : Bool
deriving Repr, DecidableEq

/-- `_handle_tempban`: compute `unban_time = now + ban_seconds`; if the
delegation probe accepts, return success without touching the ledger;
otherwise issue the direct `guild.ban` — on failure return `(False, _)`
with no durable write, on success `_add_tempban` and return `(True, _)`. -/
def handle_tempban (tempbans : List TempbanRecord) (memberId now ban_seconds : Nat)
    (reason : String) (mod_present : Bool) (b : String → CandidateOutcome)
    (direct_outcome : BanCallOutcome) : HandleTempbanResult :=
  let unban_time := now + ban_seconds
  if try_mod_tempban mod_present b then
    { ok := true, unban_time := unban_time, tempbans := tempbans, direct_ban_tried := false }
  else
    match direct_outcome with
    | .success =>
      { ok := true, unban_time := unban_time,
        tempbans := add_tempban tempbans memberId unban_time reason,
        direct_ban_tried := true }
    | _ =>
      { ok := false, unban_time := unban_time, tempbans := tempbans,
        direct_ban_tried := true }

/-- `_store_log_action`: a duplicate `message_id` is a no-op; otherwise the
new entry is appended and only the last 300 entries are kept
(`actions[-300:]`). -/
def store_log_action (actions : List LogEntry) (user_id message_id : Nat)
    (payload : Payload) : List LogEntry :=
  if actions.any (fun e => e.message_id == some message_id) then actions
  else
    let appended := actions ++
      [{ user_id := some user_id, message_id := some message_id,
         payload := some payload }]
    appended.drop (appended.length - 300)

/-- A full action ledger: 300 well-formed entries with distinct message
ids. -/
def full_ledger : List LogEntry :=
  (List.range 300).map
    (fun i => { user_id := some 1, message_id := some i, payload := none })

/-- `_remove_log_action`: drops every entry whose `message_id` matches (the
source skips the durable write when nothing changed, which is the same
stored value). -/
def remove_log_action (actions : List LogEntry) (message_id : Nat) :
    List LogEntry :=
  actions.filter (fun e => e.message_id ≠ some message_id)

/-- The default payload `_restore_log_action_views` substitutes when the
stored payload is not a dict. -/
def default_payload : Payload :=
  { member_tag := "알 수 없음", join_time := 0, leave_time := 0,
    elapsed_seconds := 0, dm_result := "알 수 없음", bounce_count := 0,
    permban := false, ban_seconds := none, unban_time := none }

/-- The per-entry loop of `_restore_log_action_views`: skip (drop) entries
with a falsy `user_id` or `message_id`; a non-dict payload is replaced by a
default for the rebuilt view but the entry itself is appended unchanged;
`bot.add_view` (success given by `add_ok` on the message id) failing drops
the entry.  Accumulates the `cleaned` list and the number of live views
bound. -/
def restore_go (add_ok : Nat → Bool) :
    List LogEntry → List LogEntry → Nat → List LogEntry × Nat
  | [], cleaned, bound => (cleaned, bound)
  | e :: rest, cleaned, bound =>
    if truthy e.user_id = false ∨ truthy e.message_id = false then
      restore_go add_ok rest cleaned bound
    else
      if add_ok (e.message_id.getD 0) then
        restore_go add_ok rest (cleaned ++ [e]) (bound + 1)
      else
        restore_go add_ok rest cleaned bound

/-- `_restore_log_action_views` for one guild: run the per-entry loop and
write `cleaned` back to durable storage when its length changed (the stored
value is the same either way). -/
def restore_log_action_views (add_ok : Nat → Bool) (actions : List LogEntry) :
    List LogEntry × Nat :=
  let r := restore_go add_ok actions [] 0
  (if r.1.length ≠ actions.length then r.1 else actions, r.2)

/-- The condition under which `_restore_log_action_views` keeps an entry:
truthy ids and a successful `bot.add_view` on its message id. -/
def restore_keep (add_ok : Nat → Bool) (e : LogEntry) : Bool :=
  truthy e.user_id && truthy e.message_id && add_ok (e.message_id.getD 0)

/-- Outcome of a `guild.unban` platform call in the reconciliation loop:
completes, or raises `Forbidden` / `HTTPException` / `NotFound` — all three
caught and swallowed by the loop. -/
inductive UnbanOutcome
  | success
  | notFound
  | forbidden
  | httpError
deriving Repr, DecidableEq

/-- The per-guild body of `_unban_loop`: iterate over a snapshot of the
tempban list; skip records with `expires_at > now`; for expired records
attempt `guild.unban` (outcome indexed by attempt number, every branch of
the `try`/`except` swallowed identically) and then `_remove_tempban` the
subject from the current ledger.  Returns the ledger afterwards and the
subjects for which a reversal call was issued. -/
def unban_tick_go (outcome : Nat → UnbanOutcome) :
    List TempbanRecord → Nat → Nat → List TempbanRecord → List Nat →
    List TempbanRecord × List Nat
  | [], _, _, cur, calls => (cur, calls)
  | e :: rest, now, idx, cur, calls =>
    if now < e.expires_at then unban_tick_go outcome rest now idx cur calls
    else
      match outcome idx with
      | .success =>
        unban_tick_go outcome rest now (idx + 1)
          (remove_tempban cur e.user_id) (calls ++ [e.user_id])
      | .notFound =>
        unban_tick_go outcome rest now (idx + 1)
          (remove_tempban cur e.user_id) (calls ++ [e.user_id])
      | .forbidden =>
        unban_tick_go outcome rest now (idx + 1)
          (remove_tempban cur e.user_id) (calls ++ [e.user_id])
      | .httpError =>
        unban_tick_go outcome rest now (idx + 1)
          (remove_tempban cur e.user_id) (calls ++ [e.user_id])

/-- One reconciliation tick of `_unban_loop` for one guild. -/
def unban_tick (outcome : Nat → UnbanOutcome) (tempbans : List TempbanRecord)
    (now : Nat) : List TempbanRecord × List Nat :=
  unban_tick_go outcome tempbans now 0 tempbans []

/-- The ephemeral response `_handle_log_action` sends back to the
interacting actor. -/
inductive LAResponse
  | guildMismatch
  | notAdmin
  | permbanDone
  | permbanFailed
  | unbanDone
  | notCurrentlyBanned
  | unbanFailed
  | noResponse
deriving Repr, DecidableEq

/-- Environment of one `_handle_log_action` invocation: the guild-id check,
the authority check, the outcomes of the platform `guild.ban` /
`guild.unban` calls, whether `interaction.message` is set and its id, and
whether the card edit succeeds (its failure is swallowed). -/
structure LAEnv where
  guild_matches : Bool
  is_admin : Bool
  ban_outcome : BanCallOutcome
  unban_outcome : UnbanOutcome
  message_id : Option Nat
  edit_ok : Bool
deriving Repr, DecidableEq

/-- Result of one `_handle_log_action` invocation: the response to the
actor, how many platform ban / unban calls were issued, and the durable
state afterwards. -/
structure LAResult where
  response : LAResponse
  ban_calls : Nat
  unban_calls : Nat
  tempbans : List TempbanRecord
  log_actions : List LogEntry
deriving Repr, DecidableEq

/-- `_handle_log_action`: guild and authority guards, then for `permban`
issue `guild.ban` — on success `_remove_tempban`, `_remove_log_action`
(when the interaction carries a message), edit the card (failure
swallowed), and report completion; on `Forbidden`/`HTTPException` report
failure.  For `unban` issue `guild.unban` — on success the same cleanup and
completion, on `NotFound` report "not currently banned" with no state
change, on other failure report failure.  The ledger is never consulted
before the platform call. -/
def handle_log_action (action : String) (user_id : Nat)
    (tempbans : List TempbanRecord) (log_actions : List LogEntry)
    (env : LAEnv) : LAResult :=
  if env.guild_matches = false then
    { response := .guildMismatch, ban_calls := 0, unban_calls := 0,
      tempbans := tempbans, log_actions := log_actions }
  else if env.is_admin = false then
    { response := .notAdmin, ban_calls := 0, unban_calls := 0,
      tempbans := tempbans, log_actions := log_actions }
  else if action = "permban" then
    match env.ban_outcome with
    | .success =>
      { response := .permbanDone, ban_calls := 1, unban_calls := 0,
        tempbans := remove_tempban tempbans user_id,
        log_actions :=
          match env.message_id with
          | some mid => remove_log_action log_actions mid
          | none => log_actions }
    | _ =>
      { response := .permbanFailed, ban_calls := 1, unban_calls := 0,
        tempbans := tempbans, log_actions := log_actions }
  else if action = "unban" then
    match env.unban_outcome with
    | .success =>
      { response := .unbanDone, ban_calls := 0, unban_calls := 1,
        tempbans := remove_tempban tempbans user_id,
        log_actions :=
          match env.message_id with
          | some mid => remove_log_action log_actions mid
          | none => log_actions }
    | .notFound =>
      { response := .notCurrentlyBanned, ban_calls := 0, unban_calls := 1,
        tempbans := tempbans, log_actions := log_actions }
    | _ =>
      { response := .unbanFailed, ban_calls := 0, unban_calls := 1,
        tempbans := tempbans, log_actions := log_actions }
  else
    { response := .noResponse, ban_calls := 0, unban_calls := 0,
      tempbans := tempbans, log_actions := log_actions }

/-- The sanction decision produced once a leave within the window is
correlated with a join. -/
inductive Decision
  | temporary
  | permanent
deriving Repr, DecidableEq

/-- Environment of one `on_member_remove` run: the DM outcome, the
delegation-probe environment, the platform `guild.ban` outcomes for the
permanent and the direct temporary path, the log-channel send outcome and
the id of the posted card message, and the clock reading at sanction time
(the handler sleeps 5 seconds after the DM before sanctioning). -/
structure RemoveEnv where
  dm_ok : Bool
  dm_fail : String
  mod_present : Bool
  mod_behavior : String → CandidateOutcome
  perm_ban_outcome : BanCallOutcome
  direct_ban_outcome : BanCallOutcome
  log_send_ok : Bool
  new_message_id : Nat
  sanction_now : Nat

/-- Result of one `on_member_remove` run: the guild state afterwards, the
decision produced (none when no bounce was detected), whether a review
card was posted, how many direct platform ban calls were issued, whether
the delegation probe ran, and whether the notification DM was attempted. -/
structure RemoveResult where
  state : GuildState
  decision : Option Decision
  card_posted : Bool
  ban_calls : Nat
  probe_tried : Bool
  dm_attempted : Bool
deriving Repr, DecidableEq

/-- `_log_action`: return when no log channel is configured; otherwise post
the card (`channel.send` may fail, and the `try` swallows everything
including the store) and on success `_store_log_action`. -/
def log_action_finish (st : GuildState) (cfg : GuildConfig) (env : RemoveEnv)
    (memberId : Nat) (payload : Payload) : GuildState × Bool :=
  match cfg.log_channel with
  | none => (st, false)
  | some _ =>
    if env.log_send_ok then
      ({ st with log_actions :=
          store_log_action st.log_actions memberId env.new_message_id payload },
       true)
    else (st, false)

/-- The tail of `on_member_remove` after the offense counter was
incremented to `current`: `is_permban = current >= 3`; send the DM
(state-free), settle, then either the permanent `guild.ban` (on success
clearing the subject's tempbans, on failure only a log notice) or
`_handle_tempban` (on failure only a log notice), and finally
`_log_action`. -/
def bounce_sanction (cfg : GuildConfig) (st2 : GuildState) (memberId : Nat)
    (memberTag : String) (join_time now : Nat) (elapsed : Int) (current : Nat)
    (env : RemoveEnv) : RemoveResult :=
  let dm_result := if env.dm_ok then "성공" else env.dm_fail
  if 3 ≤ current then
    match env.perm_ban_outcome with
    | .success =>
      let st3 : GuildState :=
        { st2 with tempbans := remove_tempban st2.tempbans memberId }
      let payload : Payload :=
        { member_tag := memberTag, join_time := join_time, leave_time := now,
          elapsed_seconds := elapsed, dm_result := dm_result,
          bounce_count := current, permban := true,
          ban_seconds := none, unban_time := none }
      let fin := log_action_finish st3 cfg env memberId payload
      { state := fin.1, decision := some .permanent, card_posted := fin.2,
        ban_calls := 1, probe_tried := false, dm_attempted := true }
    | _ =>
      { state := st2, decision := some .permanent, card_posted := false,
        ban_calls := 1, probe_tried := false, dm_attempted := true }
  else
    let reason :=
      "들낙 감지(자동) - tempban " ++ format_duration cfg.ban_duration_seconds
    let htr := handle_tempban st2.tempbans memberId env.sanction_now
      cfg.ban_duration_seconds reason env.mod_present env.mod_behavior
      env.direct_ban_outcome
    if htr.ok then
      let st3 : GuildState := { st2 with tempbans := htr.tempbans }
      let payload : Payload :=
        { member_tag := memberTag, join_time := join_time, leave_time := now,
          elapsed_seconds := elapsed, dm_result := dm_result,
          bounce_count := current, permban := false,
          ban_seconds := some cfg.ban_duration_seconds,
          unban_time := some htr.unban_time }
      let fin := log_action_finish st3 cfg env memberId payload
      { state := fin.1, decision := some .temporary, card_posted := fin.2,
        ban_calls := if htr.direct_ban_tried then 1 else 0,
        probe_tried := true, dm_attempted := true }
    else
      { state := st2, decision := some .temporary, card_posted := false,
        ban_calls := if htr.direct_ban_tried then 1 else 0,
        probe_tried := true, dm_attempted := true }

/-- `on_member_remove`: bot/ignore gate, `enabled` gate, join-cache pop
(absence means "no correlated join", not a bounce), elapsed-versus-window
check with the always-false repeat detector, offense-counter increment
inside the config transaction, then the sanction tail. -/
def on_member_remove (cfg : GuildConfig) (st : GuildState) (memberId : Nat)
    (memberTag : String) (isBot : Bool) (now : Nat) (env : RemoveEnv) :
    RemoveResult :=
  if should_ignore_member isBot cfg.include_bots then
    { state := st, decision := none, card_posted := false, ban_calls := 0,
      probe_tried := false, dm_attempted := false }
  else if cfg.enabled = false then
    { state := st, decision := none, card_posted := false, ban_calls := 0,
      probe_tried := false, dm_attempted := false }
  else
    match alookup st.join_cache memberId with
    | none =>
      { state := st, decision := none, card_posted := false, ban_calls := 0,
        probe_tried := false, dm_attempted := false }
    | some join_time =>
      let st1 : GuildState :=
        { st with join_cache := aerase st.join_cache memberId }
      let elapsed : Int := (now : Int) - (join_time : Int)
      if (cfg.window_seconds : Int) < elapsed ∧ should_trigger_repeat cfg = false then
        { state := st1, decision := none, card_posted := false, ban_calls := 0,
          probe_tried := false, dm_attempted := false }
      else
        let current := (alookup st1.bounce_counts memberId).getD 0 + 1
        let st2 : GuildState :=
          { st1 with bounce_counts := aupsert st1.bounce_counts memberId current }
        bounce_sanction cfg st2 memberId memberTag join_time now elapsed current env

/-- Configuration for the C2/C3/C4 witnesses: detection on, 60-second
window, one-day sanction, log channel set. -/
def cfgW : GuildConfig :=
  { enabled := true, window_seconds := 60, ban_duration_seconds := 86400,
    include_bots := false, welcome_enabled := true, repeat_enabled := false,
    log_channel := some 10 }

/-- Guild state for the C2/C4 witnesses: member 42 joined at t=100. -/
def stW : GuildState :=
  { join_cache := [(42, 100)], bounce_counts := [], tempbans := [],
    log_actions := [] }

/-- Guild state for the C3 witness: member 42 joined at t=100 and already
has one recorded offense; member 7 has unrelated offenses. -/
def stW3 : GuildState :=
  { join_cache := [(42, 100)], bounce_counts := [(42, 1), (7, 5)],
    tempbans := [], log_actions := [] }

/-- Environment for the C2/C4 witnesses: everything succeeds, no delegate. -/
def envW : RemoveEnv :=
  { dm_ok := true, dm_fail := "", mod_present := false,
    mod_behavior := fun _ => CandidateOutcome.absent,
    perm_ban_outcome := BanCallOutcome.success,
    direct_ban_outcome := BanCallOutcome.success,
    log_send_ok := true, new_message_id := 555, sanction_now := 135 }

/-- Environment for the C3 witness: the direct sanction call fails with
`Forbidden`, exercising the increment-survives-sanction-failure point. -/
def envFail : RemoveEnv :=
  { dm_ok := false, dm_fail := "실패: Forbidden", mod_present := false,
    mod_behavior := fun _ => CandidateOutcome.absent,
    perm_ban_outcome := BanCallOutcome.forbidden,
    direct_ban_outcome := BanCallOutcome.forbidden,
    log_send_ok := true, new_message_id := 556, sanction_now := 135 }

/-- Environment for the C7 counterexample: checks pass, platform calls
succeed, the interaction carries message 77, the card edit fails (so the
card's buttons stay enabled after resolution). -/
def c7_replay_env : LAEnv :=
  { guild_matches := true, is_admin := true,
    ban_outcome := BanCallOutcome.success,
    unban_outcome := UnbanOutcome.success,
    message_id := some 77, edit_ok := false }

/-- First `permban` interaction of the C7 counterexample: a pending entry
for subject 5 bound to card 77, and a live tempban for subject 5. -/
def c7_first_run : LAResult :=
  handle_log_action "permban" 5
    [{ user_id := 5, expires_at := 999, reason := "r" }]
    [{ user_id := some 5, message_id := some 77,
       payload := some default_payload }] c7_replay_env

/-- Replay of the same `permban` interaction against the state left by the
first run (the PendingAction is resolved and deleted). -/
def c7_second_run : LAResult :=
  handle_log_action "permban" 5 c7_first_run.tempbans c7_first_run.log_actions
    c7_replay_env

/-- Environment for the C7 witness: checks pass, the platform reports the
subject not currently banned on `unban`. -/
def c7_env : LAEnv :=
  { guild_matches := true, is_admin := true,
    ban_outcome := BanCallOutcome.success,
    unban_outcome := UnbanOutcome.notFound,
    message_id := some 3, edit_ok := true }

/-- Configuration for the C1 scenario: detection enabled, bots excluded,
welcome DM disabled (its registered default). -/
def c1_cfg : GuildConfig :=
  { enabled := true, window_seconds := 60, ban_duration_seconds := 86400,
    include_bots := false, welcome_enabled := false, repeat_enabled := false,
    log_channel := none }

/-- Helper lemma: skippable prefixes (missing attribute or `TypeError`) do
not change the probe's verdict on the remaining candidates. -/
theorem probe_candidates_append (l1 : List CandidateOutcome) (c : CandidateOutcome)
    (l2 : List CandidateOutcome)
    (h : ∀ x ∈ l1, x = CandidateOutcome.absent ∨ x = CandidateOutcome.typeError) :
    probe_candidates (l1 ++ c :: l2) = probe_candidates (c :: l2) := by
  induction l1 with
  | nil => rfl
  | cons a t ih =>
    have ha := h a (List.mem_cons_self a t)
    have ht : ∀ x ∈ t, x = CandidateOutcome.absent ∨ x = CandidateOutcome.typeError :=
      fun x hx => h x (List.mem_cons_of_mem a hx)
    rcases ha with ha | ha <;> subst ha <;>
      simpa [probe_candidates] using ih ht

/-- C1: the claim says that for a join event with detection enabled and a
non-ignored member, the join cache afterwards maps the member to the join
timestamp, independent of any other configuration setting.  The code
violates this: `on_member_join` returns before the cache write whenever
`welcome_enabled` is false, so with detection enabled and welcome disabled
the join is never recorded. -/
theorem c1_join_not_recorded_without_welcome :
    c1_cfg.enabled = true ∧
    should_ignore_member false c1_cfg.include_bots = false ∧
    on_member_join c1_cfg [] 42 false 1000 = [] ∧
    alookup (on_member_join c1_cfg [] 42 false 1000) 42 = none := by
  decide

/-- C5 counterexample: the claim says a new temporary sanction first removes
any prior `TempbanRecord` for the subject.  Executing a direct-path
temporary sanction for subject 7 while a prior record for subject 7 is live
leaves two records for that subject in the ledger. -/
theorem c5_second_tempban_duplicates_record :
    ((handle_tempban [{ user_id := 7, expires_at := 100, reason := "r1" }]
        7 50 86400 "r2" false (fun _ => CandidateOutcome.absent)
        BanCallOutcome.success).tempbans.filter
      (fun e => e.user_id == 7)).length = 2 := by
  decide

/-- C5 amended: executing a new temporary sanction does not remove prior
records — on direct-path success the new record is appended and every prior
record (including any for the same subject) is left in place. -/
theorem c5_tempban_appends_without_removal (tempbans : List TempbanRecord)
    (memberId now ban_seconds : Nat) (reason : String) (mod_present : Bool)
    (b : String → CandidateOutcome) (o : BanCallOutcome)
    (hprobe : try_mod_tempban mod_present b = false)
    (ho : o = BanCallOutcome.success) :
    (handle_tempban tempbans memberId now ban_seconds reason mod_present b o).tempbans =
      tempbans ++ [{ user_id := memberId, expires_at := now + ban_seconds,
                     reason := reason }] := by
  subst ho
  simp [handle_tempban, hprobe, add_tempban]

/-- C5 amended, witness: concrete run with a prior record for the same
subject. -/
theorem c5_tempban_appends_without_removal_witness :
    try_mod_tempban false (fun _ => CandidateOutcome.absent) = false ∧
    (handle_tempban [{ user_id := 7, expires_at := 100, reason := "r1" }]
        7 50 86400 "r2" false (fun _ => CandidateOutcome.absent)
        BanCallOutcome.success).tempbans =
      [{ user_id := 7, expires_at := 100, reason := "r1" }] ++
        [{ user_id := 7, expires_at := 50 + 86400, reason := "r2" }] :=
  ⟨by decide,
   c5_tempban_appends_without_removal
     [{ user_id := 7, expires_at := 100, reason := "r1" }]
     7 50 86400 "r2" false (fun _ => CandidateOutcome.absent)
     BanCallOutcome.success (by decide) rfl⟩

/-- C9: with the external authority present, the probe accepts on the first
candidate whose invocation completes, skipping candidates that are missing,
not callable, or raise a parameter-shape `TypeError`; a candidate failing
with any other error makes the probe report not-handled, and in that case
`_handle_tempban` falls back to the direct platform sanction (while an
accepted probe suppresses it). -/
theorem c9_probe_first_success_else_fallback
    (b : String → CandidateOutcome) (l1 l2 : List CandidateOutcome)
    (c : CandidateOutcome) (tempbans : List TempbanRecord)
    (memberId now ban_seconds : Nat) (reason : String) (o : BanCallOutcome)
    (hsplit : candidate_names.map b = l1 ++ c :: l2)
    (hskip : ∀ x ∈ l1, x = CandidateOutcome.absent ∨ x = CandidateOutcome.typeError) :
    (c = CandidateOutcome.success →
      try_mod_tempban true b = true ∧
      (handle_tempban tempbans memberId now ban_seconds reason true b o).direct_ban_tried
        = false) ∧
    (c = CandidateOutcome.otherError →
      try_mod_tempban true b = false ∧
      (handle_tempban tempbans memberId now ban_seconds reason true b o).direct_ban_tried
        = true) := by
  have hprobe : try_mod_tempban true b = probe_candidates (c :: l2) := by
    simp [try_mod_tempban, hsplit, probe_candidates_append l1 c l2 hskip]
  constructor
  · intro hc
    subst hc
    have h1 : try_mod_tempban true b = true := by simp [hprobe, probe_candidates]
    exact ⟨h1, by simp [handle_tempban, h1]⟩
  · intro hc
    subst hc
    have h1 : try_mod_tempban true b = false := by simp [hprobe, probe_candidates]
    refine ⟨h1, ?_⟩
    cases o <;> simp [handle_tempban, h1]

/-- C9 witness: first candidate raises `TypeError`, second completes. -/
theorem c9_probe_first_success_else_fallback_witness :
    (candidate_names.map
        (fun n => if n == "_tempban" then CandidateOutcome.typeError
                  else CandidateOutcome.success) =
      [CandidateOutcome.typeError] ++ CandidateOutcome.success ::
        [CandidateOutcome.success, CandidateOutcome.success]) ∧
    ((CandidateOutcome.success = CandidateOutcome.success →
      try_mod_tempban true
          (fun n => if n == "_tempban" then CandidateOutcome.typeError
                    else CandidateOutcome.success) = true ∧
      (handle_tempban [] 7 50 86400 "r" true
          (fun n => if n == "_tempban" then CandidateOutcome.typeError
                    else CandidateOutcome.success)
          BanCallOutcome.success).direct_ban_tried = false) ∧
    (CandidateOutcome.success = CandidateOutcome.otherError →
      try_mod_tempban true
          (fun n => if n == "_tempban" then CandidateOutcome.typeError
                    else CandidateOutcome.success) = false ∧
      (handle_tempban [] 7 50 86400 "r" true
          (fun n => if n == "_tempban" then CandidateOutcome.typeError
                    else CandidateOutcome.success)
          BanCallOutcome.success).direct_ban_tried = true)) :=
  ⟨by decide,
   c9_probe_first_success_else_fallback
     (fun n => if n == "_tempban" then CandidateOutcome.typeError
               else CandidateOutcome.success)
     [CandidateOutcome.typeError]
     [CandidateOutcome.success, CandidateOutcome.success]
     CandidateOutcome.success [] 7 50 86400 "r" BanCallOutcome.success
     (by decide) (by decide)⟩

/-- Helper lemma: one step of the reconciliation tick, independent of the
unban call's outcome (every `except` branch is a swallow). -/
theorem unban_tick_go_cons (o : Nat → UnbanOutcome) (e : TempbanRecord)
    (rest : List TempbanRecord) (now idx : Nat) (cur : List TempbanRecord)
    (calls : List Nat) :
    unban_tick_go o (e :: rest) now idx cur calls =
      if now < e.expires_at then unban_tick_go o rest now idx cur calls
      else unban_tick_go o rest now (idx + 1)
        (remove_tempban cur e.user_id) (calls ++ [e.user_id]) := by
  by_cases h : now < e.expires_at
  · simp [unban_tick_go, h]
  · cases ho : o idx <;> simp [unban_tick_go, h, ho]

/-- Helper lemma: the tick only ever removes records from the ledger. -/
theorem unban_tick_go_subset (o : Nat → UnbanOutcome) (snap : List TempbanRecord)
    (now : Nat) :
    ∀ idx cur calls r, r ∈ (unban_tick_go o snap now idx cur calls).1 → r ∈ cur := by
  induction snap with
  | nil => intro idx cur calls r hr; simpa [unban_tick_go] using hr
  | cons a rest ih =>
    intro idx cur calls r hr
    rw [unban_tick_go_cons] at hr
    by_cases h : now < a.expires_at
    · rw [if_pos h] at hr
      exact ih idx cur calls r hr
    · rw [if_neg h] at hr
      have := ih (idx + 1) (remove_tempban cur a.user_id) (calls ++ [a.user_id]) r hr
      exact (List.mem_filter.mp this).1

/-- Helper lemma: calls already issued stay in the call list. -/
theorem unban_tick_go_calls_mono (o : Nat → UnbanOutcome) (snap : List TempbanRecord)
    (now : Nat) :
    ∀ idx cur calls c, c ∈ calls → c ∈ (unban_tick_go o snap now idx cur calls).2 := by
  induction snap with
  | nil => intro idx cur calls c hc; simpa [unban_tick_go] using hc
  | cons a rest ih =>
    intro idx cur calls c hc
    rw [unban_tick_go_cons]
    by_cases h : now < a.expires_at
    · rw [if_pos h]; exact ih idx cur calls c hc
    · rw [if_neg h]
      exact ih (idx + 1) (remove_tempban cur a.user_id) (calls ++ [a.user_id]) c
        (List.mem_append_left _ hc)

/-- Helper lemma: after the tick processes an expired snapshot record, no
record for that subject survives in the ledger. -/
theorem unban_tick_go_expired_gone (o : Nat → UnbanOutcome) (snap : List TempbanRecord)
    (now : Nat) (e : TempbanRecord) (he : e ∈ snap) (hexp : e.expires_at ≤ now) :
    ∀ idx cur calls r, r ∈ (unban_tick_go o snap now idx cur calls).1 →
      r.user_id ≠ e.user_id := by
  induction snap with
  | nil => cases he
  | cons a rest ih =>
    intro idx cur calls r hr
    rw [unban_tick_go_cons] at hr
    rcases List.mem_cons.mp he with rfl | hmem
    · have hnot : ¬ now < e.expires_at := not_lt.mpr hexp
      rw [if_neg hnot] at hr
      have hsub := unban_tick_go_subset o rest now (idx + 1)
        (remove_tempban cur e.user_id) (calls ++ [e.user_id]) r hr
      have := (List.mem_filter.mp hsub).2
      simpa using this
    · by_cases h : now < a.expires_at
      · rw [if_pos h] at hr
        exact ih hmem idx cur calls r hr
      · rw [if_neg h] at hr
        exact ih hmem (idx + 1) (remove_tempban cur a.user_id)
          (calls ++ [a.user_id]) r hr

/-- Helper lemma: every expired snapshot record gets a reversal call. -/
theorem unban_tick_go_expired_called (o : Nat → UnbanOutcome)
    (snap : List TempbanRecord) (now : Nat) (e : TempbanRecord)
    (he : e ∈ snap) (hexp : e.expires_at ≤ now) :
    ∀ idx cur calls, e.user_id ∈ (unban_tick_go o snap now idx cur calls).2 := by
  induction snap with
  | nil => cases he
  | cons a rest ih =>
    intro idx cur calls
    rw [unban_tick_go_cons]
    rcases List.mem_cons.mp he with rfl | hmem
    · have hnot : ¬ now < e.expires_at := not_lt.mpr hexp
      rw [if_neg hnot]
      exact unban_tick_go_calls_mono o rest now (idx + 1)
        (remove_tempban cur e.user_id) (calls ++ [e.user_id]) e.user_id
        (List.mem_append_right _ (List.mem_singleton.mpr rfl))
    · by_cases h : now < a.expires_at
      · rw [if_pos h]; exact ih hmem idx cur calls
      · rw [if_neg h]
        exact ih hmem (idx + 1) (remove_tempban cur a.user_id) (calls ++ [a.user_id])

/-- Helper lemma: every issued reversal call belongs to an expired snapshot
record (or was already in the accumulator). -/
theorem unban_tick_go_calls_sound (o : Nat → UnbanOutcome)
    (snap : List TempbanRecord) (now : Nat) :
    ∀ idx cur calls c, c ∈ (unban_tick_go o snap now idx cur calls).2 →
      c ∈ calls ∨ ∃ s, s ∈ snap ∧ s.expires_at ≤ now ∧ s.user_id = c := by
  induction snap with
  | nil => intro idx cur calls c hc; left; simpa [unban_tick_go] using hc
  | cons a rest ih =>
    intro idx cur calls c hc
    rw [unban_tick_go_cons] at hc
    by_cases h : now < a.expires_at
    · rw [if_pos h] at hc
      rcases ih idx cur calls c hc with hl | ⟨s, hs, h1, h2⟩
      · exact Or.inl hl
      · exact Or.inr ⟨s, List.mem_cons_of_mem a hs, h1, h2⟩
    · rw [if_neg h] at hc
      rcases ih (idx + 1) (remove_tempban cur a.user_id) (calls ++ [a.user_id]) c hc
        with hl | ⟨s, hs, h1, h2⟩
      · rcases List.mem_append.mp hl with hl' | hl'
        · exact Or.inl hl'
        · exact Or.inr ⟨a, List.mem_cons_self a rest, not_lt.mp h,
            (List.mem_singleton.mp hl').symm⟩
      · exact Or.inr ⟨s, List.mem_cons_of_mem a hs, h1, h2⟩

/-- Helper lemma: a ledger record whose subject has no expired record in the
snapshot survives the tick. -/
theorem unban_tick_go_future_kept (o : Nat → UnbanOutcome)
    (snap : List TempbanRecord) (now : Nat) (e : TempbanRecord)
    (hsafe : ∀ s ∈ snap, s.user_id = e.user_id → now < s.expires_at) :
    ∀ idx cur calls, e ∈ cur → e ∈ (unban_tick_go o snap now idx cur calls).1 := by
  induction snap with
  | nil => intro idx cur calls hcur; simpa [unban_tick_go] using hcur
  | cons a rest ih =>
    intro idx cur calls hcur
    have hsafe' : ∀ s ∈ rest, s.user_id = e.user_id → now < s.expires_at :=
      fun s hs => hsafe s (List.mem_cons_of_mem a hs)
    rw [unban_tick_go_cons]
    by_cases h : now < a.expires_at
    · rw [if_pos h]; exact ih hsafe' idx cur calls hcur
    · rw [if_neg h]
      have hne : a.user_id ≠ e.user_id := by
        intro heq
        exact h (hsafe a (List.mem_cons_self a rest) heq)
      have hcur' : e ∈ remove_tempban cur a.user_id := by
        refine List.mem_filter.mpr ⟨hcur, ?_⟩
        simpa using fun h' => hne h'.symm
      exact ih hsafe' (idx + 1) (remove_tempban cur a.user_id) (calls ++ [a.user_id]) hcur'

/-- Helper lemma: the tick's result does not depend on the unban call
outcomes (success, `NotFound`, `Forbidden`, `HTTPException` are all
swallowed) nor on the attempt index. -/
theorem unban_tick_go_outcome_indep (o o' : Nat → UnbanOutcome)
    (snap : List TempbanRecord) (now : Nat) :
    ∀ idx idx' cur calls,
      unban_tick_go o snap now idx cur calls =
        unban_tick_go o' snap now idx' cur calls := by
  induction snap with
  | nil => intro idx idx' cur calls; simp [unban_tick_go]
  | cons a rest ih =>
    intro idx idx' cur calls
    rw [unban_tick_go_cons, unban_tick_go_cons]
    by_cases h : now < a.expires_at
    · rw [if_pos h, if_pos h]; exact ih idx idx' cur calls
    · rw [if_neg h, if_neg h]
      exact ih (idx + 1) (idx' + 1) (remove_tempban cur a.user_id) (calls ++ [a.user_id])

/-- C6 counterexample: the claim says every record with future expiry is
left untouched by a reconciliation tick.  With an expired and a future
record sharing subject 7, the tick (removal is keyed by subject) deletes
the future record too. -/
theorem c6_future_record_removed_with_expired_one :
    ({ user_id := 7, expires_at := 100, reason := "b" } : TempbanRecord) ∈
      ([{ user_id := 7, expires_at := 10, reason := "a" },
        { user_id := 7, expires_at := 100, reason := "b" }] : List TempbanRecord) ∧
    (50 : Nat) < 100 ∧
    (unban_tick (fun _ => UnbanOutcome.success)
        [{ user_id := 7, expires_at := 10, reason := "a" },
         { user_id := 7, expires_at := 100, reason := "b" }] 50).1 = [] := by
  decide

/-- C6 amended: in one reconciliation tick, every record with expiry at or
before now gets one reversal attempt and is removed whatever the platform
call's outcome; every reversal call issued is for an expired record; a
record with future expiry survives untouched provided no expired snapshot
record shares its subject (removal is keyed by subject, not by record); and
the tick's effect is independent of the reversal calls' outcomes. -/
theorem c6_reconciliation_tick (o o' : Nat → UnbanOutcome)
    (tempbans : List TempbanRecord) (now : Nat) (e : TempbanRecord)
    (he : e ∈ tempbans) :
    (e.expires_at ≤ now →
      e.user_id ∈ (unban_tick o tempbans now).2 ∧
      ∀ r ∈ (unban_tick o tempbans now).1, r.user_id ≠ e.user_id) ∧
    (now < e.expires_at →
      (∀ s ∈ tempbans, s.user_id = e.user_id → now < s.expires_at) →
      e ∈ (unban_tick o tempbans now).1 ∧
      e.user_id ∉ (unban_tick o tempbans now).2) ∧
    unban_tick o tempbans now = unban_tick o' tempbans now := by
  refine ⟨?_, ?_, ?_⟩
  · intro hexp
    refine ⟨unban_tick_go_expired_called o tempbans now e he hexp 0 tempbans [], ?_⟩
    intro r hr
    exact unban_tick_go_expired_gone o tempbans now e he hexp 0 tempbans [] r hr
  · intro _ hsafe
    refine ⟨unban_tick_go_future_kept o tempbans now e hsafe 0 tempbans [] he, ?_⟩
    intro hc
    rcases unban_tick_go_calls_sound o tempbans now 0 tempbans [] e.user_id hc
      with hl | ⟨s, hs, h1, h2⟩
    · cases hl
    · exact absurd (hsafe s hs h2) (not_lt.mpr h1)
  · exact unban_tick_go_outcome_indep o o' tempbans now 0 0 tempbans []

/-- C6 amended, witness: one expired record for subject 7 and one future
record for subject 9, evaluated at the expired record. -/
theorem c6_reconciliation_tick_witness :
    ({ user_id := 7, expires_at := 10, reason := "a" } : TempbanRecord) ∈
      ([{ user_id := 7, expires_at := 10, reason := "a" },
        { user_id := 9, expires_at := 100, reason := "b" }] : List TempbanRecord) ∧
    (((10 : Nat) ≤ 50 →
      (7 : Nat) ∈ (unban_tick (fun _ => UnbanOutcome.success)
          [{ user_id := 7, expires_at := 10, reason := "a" },
           { user_id := 9, expires_at := 100, reason := "b" }] 50).2 ∧
      ∀ r ∈ (unban_tick (fun _ => UnbanOutcome.success)
          [{ user_id := 7, expires_at := 10, reason := "a" },
           { user_id := 9, expires_at := 100, reason := "b" }] 50).1,
        r.user_id ≠ 7) ∧
    ((50 : Nat) < 10 →
      (∀ s ∈ ([{ user_id := 7, expires_at := 10, reason := "a" },
                { user_id := 9, expires_at := 100, reason := "b" }] :
               List TempbanRecord), s.user_id = 7 → 50 < s.expires_at) →
      ({ user_id := 7, expires_at := 10, reason := "a" } : TempbanRecord) ∈
        (unban_tick (fun _ => UnbanOutcome.success)
          [{ user_id := 7, expires_at := 10, reason := "a" },
           { user_id := 9, expires_at := 100, reason := "b" }] 50).1 ∧
      (7 : Nat) ∉ (unban_tick (fun _ => UnbanOutcome.success)
          [{ user_id := 7, expires_at := 10, reason := "a" },
           { user_id := 9, expires_at := 100, reason := "b" }] 50).2) ∧
    unban_tick (fun _ => UnbanOutcome.success)
        [{ user_id := 7, expires_at := 10, reason := "a" },
         { user_id := 9, expires_at := 100, reason := "b" }] 50 =
      unban_tick (fun _ => UnbanOutcome.notFound)
        [{ user_id := 7, expires_at := 10, reason := "a" },
         { user_id := 9, expires_at := 100, reason := "b" }] 50) :=
  ⟨by decide,
   c6_reconciliation_tick (fun _ => UnbanOutcome.success)
     (fun _ => UnbanOutcome.notFound)
     [{ user_id := 7, expires_at := 10, reason := "a" },
      { user_id := 9, expires_at := 100, reason := "b" }] 50
     { user_id := 7, expires_at := 10, reason := "a" } (by decide)⟩

/-- Helper lemma: the restore loop keeps (in order) exactly the entries with
truthy ids whose view re-binding succeeds, and binds one live view per kept
entry. -/
theorem restore_go_spec (f : Nat → Bool) (l : List LogEntry) :
    ∀ cleaned bound, restore_go f l cleaned bound =
      (cleaned ++ l.filter (restore_keep f),
       bound + (l.filter (restore_keep f)).length) := by
  induction l with
  | nil => intro cleaned bound; simp [restore_go]
  | cons e rest ih =>
    intro cleaned bound
    by_cases h1 : truthy e.user_id = false ∨ truthy e.message_id = false
    · have hk : restore_keep f e = false := by
        rcases h1 with h | h <;> simp [restore_keep, h]
      simp only [restore_go]
      rw [if_pos h1, ih, List.filter_cons, hk]
      simp
    · push_neg at h1
      have hu : truthy e.user_id = true := by
        cases hval : truthy e.user_id
        · exact absurd hval h1.1
        · rfl
      have hm : truthy e.message_id = true := by
        cases hval : truthy e.message_id
        · exact absurd hval h1.2
        · rfl
      have h1' : ¬ (truthy e.user_id = false ∨ truthy e.message_id = false) := by
        simp [hu, hm]
      by_cases h2 : f (e.message_id.getD 0) = true
      · have hk : restore_keep f e = true := by simp [restore_keep, hu, hm, h2]
        simp only [restore_go]
        rw [if_neg h1', if_pos h2, ih, List.filter_cons, hk]
        simp [List.append_assoc]
        try omega
      · have hk : restore_keep f e = false := by
          simp [restore_keep, hu, hm]
          simpa using h2
        simp only [restore_go]
        rw [if_neg h1', if_neg h2, ih, List.filter_cons, hk]
        simp

/-- C8 counterexample: the claim says recovery re-binds live controls for
exactly the well-formed entries and removes all malformed entries.  A
ledger holding one entry with intact ids but a malformed (non-dict)
snapshot yields one live re-bound card and removes nothing: the entry is
repaired with a default snapshot and kept. -/
theorem c8_malformed_snapshot_kept :
    restore_log_action_views (fun _ => true)
        [{ user_id := some 1, message_id := some 2, payload := none }] =
      ([{ user_id := some 1, message_id := some 2, payload := none }], 1) := by
  decide

/-- C8 amended: restart recovery keeps in storage, and binds one live view
for, exactly the entries with truthy `user_id` and `message_id` whose
re-binding call succeeds; entries missing either id or failing re-binding
are dropped from storage, while a malformed (non-dict) snapshot is repaired
with a default snapshot rather than dropped. -/
theorem c8_restore_keeps_rebindable_entries (add_ok : Nat → Bool)
    (actions : List LogEntry) :
    restore_log_action_views add_ok actions =
      (actions.filter (restore_keep add_ok),
       (actions.filter (restore_keep add_ok)).length) := by
  unfold restore_log_action_views
  rw [restore_go_spec]
  simp only [List.nil_append, Nat.zero_add]
  by_cases h : (actions.filter (restore_keep add_ok)).length = actions.length
  · rw [if_neg (by simpa using h)]
    rw [List.filter_eq_self.mpr (List.filter_length_eq_length.mp h)]
  · rw [if_pos (by simpa using h)]

/-- C10: inserting a fresh entry into the action ledger leaves at most 300
entries, and an insert into a 300-entry ledger appends the new entry and
silently drops the oldest one — so a still-pending entry can leave durable
storage without ever being resolved. -/
theorem c10_ledger_capped_at_300 (actions : List LogEntry)
    (user_id message_id : Nat) (payload : Payload)
    (hfresh : actions.any (fun e => e.message_id == some message_id) = false) :
    (store_log_action actions user_id message_id payload).length ≤ 300 ∧
    (actions.length = 300 →
      store_log_action actions user_id message_id payload =
        actions.drop 1 ++
          [{ user_id := some user_id, message_id := some message_id,
             payload := some payload }]) := by
  constructor
  · unfold store_log_action
    rw [if_neg (by simp [hfresh])]
    simp only [List.length_drop]
    omega
  · intro hlen
    unfold store_log_action
    rw [if_neg (by simp [hfresh])]
    simp only [List.length_append, hlen, List.length_singleton]
    have hdrop : (300 + 1) - 300 = 1 := by omega
    rw [hdrop, List.drop_append_of_le_length (by omega)]

set_option maxRecDepth 40000 in
/-- C10 witness: a full 300-entry ledger and a fresh message id. -/
theorem c10_ledger_capped_at_300_witness :
    (full_ledger.any (fun e => e.message_id == some 1000) = false) ∧
    ((store_log_action full_ledger 5 1000 default_payload).length ≤ 300 ∧
     (full_ledger.length = 300 →
       store_log_action full_ledger 5 1000 default_payload =
         full_ledger.drop 1 ++
           [{ user_id := some 5, message_id := some 1000,
              payload := some default_payload }])) :=
  ⟨by decide, c10_ledger_capped_at_300 full_ledger 5 1000 default_payload (by decide)⟩

/-- C7 counterexample: the claim says replaying a `PermanentSanction`
interaction against an already-resolved PendingAction is a no-op answered
with a "not currently sanctioned"-class rejection and never a second
platform sanction call.  After a first `permban` interaction resolves the
entry (deleting it from the ledger), replaying the same interaction — the
realizable path when the card edit failed and its buttons stayed enabled —
issues another `guild.ban` call and reports success, not a rejection. -/
theorem c7_resolved_replay_reissues_sanction :
    c7_first_run.ban_calls = 1 ∧ c7_first_run.log_actions = [] ∧
    c7_second_run.ban_calls = 1 ∧
    c7_second_run.response = LAResponse.permbanDone ∧
    c7_second_run.response ≠ LAResponse.notCurrentlyBanned := by
  decide

/-- C7 amended: `_handle_log_action` never consults the Action Ledger
before acting, so replay protection comes only from the platform: a
(replayed) `PermanentSanction` always re-issues the platform ban call,
while a replayed `Reverse` gets the "not currently sanctioned" rejection —
with no ledger or tempban change and no sanction call — exactly when the
platform reports the subject not banned. -/
theorem c7_replay_not_guarded_by_ledger (tempbans : List TempbanRecord)
    (log_actions : List LogEntry) (user_id : Nat) (env : LAEnv)
    (hg : env.guild_matches = true) (ha : env.is_admin = true) :
    (handle_log_action "permban" user_id tempbans log_actions env).ban_calls = 1 ∧
    (env.unban_outcome = UnbanOutcome.notFound →
      (handle_log_action "unban" user_id tempbans log_actions env).response =
        LAResponse.notCurrentlyBanned ∧
      (handle_log_action "unban" user_id tempbans log_actions env).tempbans =
        tempbans ∧
      (handle_log_action "unban" user_id tempbans log_actions env).log_actions =
        log_actions ∧
      (handle_log_action "unban" user_id tempbans log_actions env).ban_calls = 0) := by
  have hne : ("unban" : String) ≠ "permban" := by decide
  constructor
  · cases hb : env.ban_outcome <;>
      simp [handle_log_action, hg, ha, hb]
  · intro hnf
    simp [handle_log_action, hg, ha, hnf, hne]

/-- C7 amended, witness: empty ledgers, a passing guard, and a platform
that reports the subject not banned. -/
theorem c7_replay_not_guarded_by_ledger_witness :
    c7_env.guild_matches = true ∧ c7_env.is_admin = true ∧
    ((handle_log_action "permban" 5 [] [] c7_env).ban_calls = 1 ∧
     (c7_env.unban_outcome = UnbanOutcome.notFound →
       (handle_log_action "unban" 5 [] [] c7_env).response =
         LAResponse.notCurrentlyBanned ∧
       (handle_log_action "unban" 5 [] [] c7_env).tempbans = ([] : List TempbanRecord) ∧
       (handle_log_action "unban" 5 [] [] c7_env).log_actions = ([] : List LogEntry) ∧
       (handle_log_action "unban" 5 [] [] c7_env).ban_calls = 0)) :=
  ⟨by decide, by decide,
   c7_replay_not_guarded_by_ledger [] [] 5 c7_env (by decide) (by decide)⟩

/-- Helper lemma: looking up the upserted key yields the new value. -/
theorem alookup_aupsert_self (l : List (Nat × Nat)) (k v : Nat) :
    alookup (aupsert l k v) k = some v := by
  induction l with
  | nil => simp [aupsert, alookup]
  | cons p rest ih =>
    obtain ⟨k', v'⟩ := p
    by_cases h : k' = k
    · simp [aupsert, alookup, h]
    · simp [aupsert, alookup, h, ih]

/-- Helper lemma: upserting one key leaves every other key's lookup
unchanged. -/
theorem alookup_aupsert_ne (l : List (Nat × Nat)) (k v q : Nat) (hq : q ≠ k) :
    alookup (aupsert l k v) q = alookup l q := by
  induction l with
  | nil => simp [aupsert, alookup, Ne.symm hq]
  | cons p rest ih =>
    obtain ⟨k', v'⟩ := p
    by_cases h : k' = k
    · subst h
      simp [aupsert, alookup, Ne.symm hq]
    · by_cases h2 : k' = q
      · simp [aupsert, alookup, h, h2, hq]
      · simp [aupsert, alookup, h, h2, ih]

/-- Helper lemma: posting the review card only changes the stored log
actions. -/
theorem log_action_finish_counts (st : GuildState) (cfg : GuildConfig)
    (env : RemoveEnv) (memberId : Nat) (payload : Payload) :
    (log_action_finish st cfg env memberId payload).1.bounce_counts =
      st.bounce_counts := by
  unfold log_action_finish
  cases cfg.log_channel
  · rfl
  · by_cases h : env.log_send_ok = true
    · simp [h]
    · simp [h]

/-- Helper lemma: the sanction tail never touches the offense counters. -/
theorem bounce_sanction_counts (cfg : GuildConfig) (st2 : GuildState)
    (memberId : Nat) (memberTag : String) (join_time now : Nat) (elapsed : Int)
    (current : Nat) (env : RemoveEnv) :
    (bounce_sanction cfg st2 memberId memberTag join_time now elapsed current
        env).state.bounce_counts = st2.bounce_counts := by
  simp only [bounce_sanction]
  split <;> split <;> simp [log_action_finish_counts]

/-- Helper lemma: the sanction tail's decision is permanent exactly when
the incremented counter reached 3, temporary otherwise. -/
theorem bounce_sanction_decision (cfg : GuildConfig) (st2 : GuildState)
    (memberId : Nat) (memberTag : String) (join_time now : Nat) (elapsed : Int)
    (current : Nat) (env : RemoveEnv) :
    (bounce_sanction cfg st2 memberId memberTag join_time now elapsed current
        env).decision =
      some (if 3 ≤ current then Decision.permanent else Decision.temporary) := by
  simp only [bounce_sanction]
  split <;> split <;> simp_all

/-- Helper lemma: under the gates (member not ignored, detection enabled, a
correlated join, elapsed within the window) the leave handler pops the join
cache, increments the counter and runs the sanction tail. -/
theorem on_member_remove_bounce (cfg : GuildConfig) (st : GuildState)
    (memberId : Nat) (memberTag : String) (isBot : Bool) (now : Nat)
    (env : RemoveEnv) (jt : Nat)
    (h_bot : should_ignore_member isBot cfg.include_bots = false)
    (h_en : cfg.enabled = true)
    (h_join : alookup st.join_cache memberId = some jt)
    (h_win : (now : Int) - (jt : Int) ≤ (cfg.window_seconds : Int)) :
    on_member_remove cfg st memberId memberTag isBot now env =
      bounce_sanction cfg
        { join_cache := aerase st.join_cache memberId,
          bounce_counts := aupsert st.bounce_counts memberId
            ((alookup st.bounce_counts memberId).getD 0 + 1),
          tempbans := st.tempbans, log_actions := st.log_actions }
        memberId memberTag jt now ((now : Int) - (jt : Int))
        ((alookup st.bounce_counts memberId).getD 0 + 1) env := by
  unfold on_member_remove
  rw [h_bot, h_en, h_join]
  simp only [Bool.false_eq_true, Bool.true_eq_false, if_false, reduceIte]
  rw [if_neg (fun hc => absurd hc.1 (not_lt.mpr h_win))]

/-- C2: for a leave with a correlated join and elapsed time at most the
window, the handler increments the offense counter first, and the decision
is permanent exactly when the incremented counter is at least 3 and
temporary exactly when it is below 3 (values 1 and 2), whatever the
external outcomes. -/
theorem c2_escalation_policy (cfg : GuildConfig) (st : GuildState)
    (memberId : Nat) (memberTag : String) (isBot : Bool) (now : Nat)
    (env : RemoveEnv) (jt : Nat)
    (h_bot : should_ignore_member isBot cfg.include_bots = false)
    (h_en : cfg.enabled = true)
    (h_join : alookup st.join_cache memberId = some jt)
    (h_win : (now : Int) - (jt : Int) ≤ (cfg.window_seconds : Int)) :
    alookup (on_member_remove cfg st memberId memberTag isBot now
        env).state.bounce_counts memberId =
      some ((alookup st.bounce_counts memberId).getD 0 + 1) ∧
    ((on_member_remove cfg st memberId memberTag isBot now env).decision =
        some Decision.permanent ↔
      3 ≤ (alookup st.bounce_counts memberId).getD 0 + 1) ∧
    ((on_member_remove cfg st memberId memberTag isBot now env).decision =
        some Decision.temporary ↔
      (alookup st.bounce_counts memberId).getD 0 + 1 < 3) := by
  rw [on_member_remove_bounce cfg st memberId memberTag isBot now env jt
    h_bot h_en h_join h_win]
  refine ⟨?_, ?_, ?_⟩
  · rw [bounce_sanction_counts]
    exact alookup_aupsert_self st.bounce_counts memberId _
  · rw [bounce_sanction_decision]
    by_cases h3 : 3 ≤ (alookup st.bounce_counts memberId).getD 0 + 1
    · simp [h3]
    · simp [h3]
  · rw [bounce_sanction_decision]
    by_cases h3 : 3 ≤ (alookup st.bounce_counts memberId).getD 0 + 1
    · simp only [if_pos h3]
      constructor
      · intro h
        exact absurd h (by simp)
      · intro h
        exact absurd h (by omega)
    · simp only [if_neg h3]
      constructor
      · intro _
        omega
      · intro _
        trivial

/-- C2 witness: member 42 joins at t=100, leaves at t=130, window 60s,
fresh counter. -/
theorem c2_escalation_policy_witness :
    should_ignore_member false cfgW.include_bots = false ∧
    cfgW.enabled = true ∧
    alookup stW.join_cache 42 = some 100 ∧
    ((130 : Int) - (100 : Int) ≤ (cfgW.window_seconds : Int)) ∧
    (alookup (on_member_remove cfgW stW 42 "tag42" false 130
        envW).state.bounce_counts 42 =
      some ((alookup stW.bounce_counts 42).getD 0 + 1) ∧
    ((on_member_remove cfgW stW 42 "tag42" false 130 envW).decision =
        some Decision.permanent ↔
      3 ≤ (alookup stW.bounce_counts 42).getD 0 + 1) ∧
    ((on_member_remove cfgW stW 42 "tag42" false 130 envW).decision =
        some Decision.temporary ↔
      (alookup stW.bounce_counts 42).getD 0 + 1 < 3)) :=
  ⟨by decide, by decide, by decide, by decide,
   c2_escalation_policy cfgW stW 42 "tag42" false 130 envW 100
     (by decide) (by decide) (by decide) (by decide)⟩

/-- C3: for a leave with a correlated join and elapsed time at most the
window, the offense counter for the member increases by exactly 1 and no
other member's counter changes — for every environment, in particular when
the subsequent sanction call (temporary or permanent) fails, since the
increment is committed before the sanction attempt. -/
theorem c3_counter_increment_exactly_once (cfg : GuildConfig) (st : GuildState)
    (memberId : Nat) (memberTag : String) (isBot : Bool) (now : Nat)
    (env : RemoveEnv) (jt : Nat)
    (h_bot : should_ignore_member isBot cfg.include_bots = false)
    (h_en : cfg.enabled = true)
    (h_join : alookup st.join_cache memberId = some jt)
    (h_win : (now : Int) - (jt : Int) ≤ (cfg.window_seconds : Int)) :
    alookup (on_member_remove cfg st memberId memberTag isBot now
        env).state.bounce_counts memberId =
      some ((alookup st.bounce_counts memberId).getD 0 + 1) ∧
    ∀ q, q ≠ memberId →
      alookup (on_member_remove cfg st memberId memberTag isBot now
          env).state.bounce_counts q = alookup st.bounce_counts q := by
  rw [on_member_remove_bounce cfg st memberId memberTag isBot now env jt
    h_bot h_en h_join h_win]
  constructor
  · rw [bounce_sanction_counts]
    exact alookup_aupsert_self st.bounce_counts memberId _
  · intro q hq
    rw [bounce_sanction_counts]
    exact alookup_aupsert_ne st.bounce_counts memberId _ q hq

/-- C3 witness: member 42 (one prior offense) bounces while the sanction
call fails with `Forbidden`; the counter still becomes 2, and member 7's
counter is untouched. -/
theorem c3_counter_increment_exactly_once_witness :
    should_ignore_member false cfgW.include_bots = false ∧
    cfgW.enabled = true ∧
    alookup stW3.join_cache 42 = some 100 ∧
    ((130 : Int) - (100 : Int) ≤ (cfgW.window_seconds : Int)) ∧
    alookup (on_member_remove cfgW stW3 42 "tag42" false 130
        envFail).state.bounce_counts 42 =
      some ((alookup stW3.bounce_counts 42).getD 0 + 1) ∧
    alookup (on_member_remove cfgW stW3 42 "tag42" false 130
        envFail).state.bounce_counts 7 = alookup stW3.bounce_counts 7 :=
  ⟨by decide, by decide, by decide, by decide,
   (c3_counter_increment_exactly_once cfgW stW3 42 "tag42" false 130 envFail 100
     (by decide) (by decide) (by decide) (by decide)).1,
   (c3_counter_increment_exactly_once cfgW stW3 42 "tag42" false 130 envFail 100
     (by decide) (by decide) (by decide) (by decide)).2 7 (by decide)⟩

/-- C4: for a leave whose elapsed time exceeds the window and with the
repeat-offense flag false, the handler performs no sanction call (neither
probe nor platform ban), leaves the offense counters, the tempban ledger
and the action ledger unchanged, produces no decision and posts no review
card. -/
theorem c4_outside_window_no_effect (cfg : GuildConfig) (st : GuildState)
    (memberId : Nat) (memberTag : String) (isBot : Bool) (now : Nat)
    (env : RemoveEnv) (jt : Nat)
    (h_bot : should_ignore_member isBot cfg.include_bots = false)
    (h_en : cfg.enabled = true)
    (h_join : alookup st.join_cache memberId = some jt)
    (h_win : (cfg.window_seconds : Int) < (now : Int) - (jt : Int))
    (h_rep : should_trigger_repeat cfg = false) :
    (on_member_remove cfg st memberId memberTag isBot now
        env).state.bounce_counts = st.bounce_counts ∧
    (on_member_remove cfg st memberId memberTag isBot now
        env).state.tempbans = st.tempbans ∧
    (on_member_remove cfg st memberId memberTag isBot now
        env).state.log_actions = st.log_actions ∧
    (on_member_remove cfg st memberId memberTag isBot now env).decision = none ∧
    (on_member_remove cfg st memberId memberTag isBot now
        env).card_posted = false ∧
    (on_member_remove cfg st memberId memberTag isBot now env).ban_calls = 0 ∧
    (on_member_remove cfg st memberId memberTag isBot now
        env).probe_tried = false := by
  unfold on_member_remove
  rw [h_bot, h_en, h_join]
  simp only [Bool.false_eq_true, Bool.true_eq_false, if_false, reduceIte]
  rw [if_pos ⟨h_win, h_rep⟩]
  exact ⟨rfl, rfl, rfl, rfl, rfl, rfl, rfl⟩

/-- C4 witness: member 42 joins at t=100 and leaves at t=300 with a
60-second window. -/
theorem c4_outside_window_no_effect_witness :
    should_ignore_member false cfgW.include_bots = false ∧
    cfgW.enabled = true ∧
    alookup stW.join_cache 42 = some 100 ∧
    ((cfgW.window_seconds : Int) < (300 : Int) - (100 : Int)) ∧
    should_trigger_repeat cfgW = false ∧
    ((on_member_remove cfgW stW 42 "tag42" false 300
        envW).state.bounce_counts = stW.bounce_counts ∧
    (on_member_remove cfgW stW 42 "tag42" false 300
        envW).state.tempbans = stW.tempbans ∧
    (on_member_remove cfgW stW 42 "tag42" false 300
        envW).state.log_actions = stW.log_actions ∧
    (on_member_remove cfgW stW 42 "tag42" false 300 envW).decision = none ∧
    (on_member_remove cfgW stW 42 "tag42" false 300 envW).card_posted = false ∧
    (on_member_remove cfgW stW 42 "tag42" false 300 envW).ban_calls = 0 ∧
    (on_member_remove cfgW stW 42 "tag42" false 300 envW).probe_tried = false) :=
  ⟨by decide, by decide, by decide, by decide, by decide,
   c4_outside_window_no_effect cfgW stW 42 "tag42" false 300 envW 100
     (by decide) (by decide) (by decide) (by decide) (by decide)⟩
